import Mathlib

/-!
Verification of the ioBroker MCP adapter against its specification.

The development shallowly embeds the core of `src/lib/mcp-server.ts`:
the object-snapshot merge (`allObjects`), the device grouping, room
resolution, classification and state enrichment of `listDevices`, the
batch state read (`handleGetStates`), the RPC method dispatch on
`/api/rpc` (including the JSON body-parse fallback), and the
`/api/system_info` aggregation.

External collaborators are parameters of the embedding:
the object/state store is a `Store` value (bulk rows per kind plus a
`getState` function returning `Except`, since each fetch may fail), and
the type-detector classifier is an opaque function argument
(`Classifier`), exactly as the spec treats it (an external capability).

JavaScript peculiarities that matter are modelled explicitly:
falsiness of the empty string (`jsStr`), object-key insertion order with
silent overwrite (`jsInsert`), `Array.prototype.slice` as drop/take, and
`Math.round` as `⌊x + 1/2⌋` (`jsRound`).
-/

namespace McpVerify

/-- JavaScript string prefix test: `s.startsWith(pre)`, as a structural
list prefix check on the character data. -/
def jsStartsWith (s pre : String) : Bool :=
  List.isPrefixOf pre.data s.data

/-- JavaScript `s.toLowerCase()` restricted to the character-wise
lowering used by identifiers and room names in this code base. -/
def jsToLower (s : String) : String :=
  String.mk (s.data.map Char.toLower)

/-- JavaScript truthiness of `x || d` for an optional string: the
fallback is taken when the string is absent or empty. -/
def jsStr (s : Option String) (d : String) : String :=
  match s with
  | none => d
  | some s => if s = "" then d else s

/-- Truthiness of an optional string (`if (room)`, `if (!method)`):
`undefined` and the empty string are falsy. -/
def jsTruthy : Option String → Bool
  | none => false
  | some s => s != ""

/-- `parentOf` of `mcp-server.ts`: `(id || '').split('.')`, `pop()`,
`join('.')` — everything before the last dot, `""` when there is none. -/
def parentOf (id : String) : String :=
  String.mk (((id.data.reverse.dropWhile (· ≠ '.')).drop 1).reverse)

/-- Loosely typed JavaScript value carried by a live state. -/
inductive JsVal
  | num (q : ℚ)
  | str (s : String)
  | bool (b : Bool)
  | null
deriving DecidableEq, Repr

/-- A live state value (`ioBroker.State`): value, acknowledged flag,
last-update and last-change timestamps. -/
structure LiveValue where
  val : JsVal
  ack : Bool
  ts : Int
  lc : Int
deriving DecidableEq, Repr

/-- A display name: a plain string or a localization map from language
code to string (`ioBroker.StringOrTranslated`). -/
inductive ObjName
  | str (s : String)
  | map (entries : List (String × String))
deriving DecidableEq, Repr

/-- Kind of an object entry, the `type` field of an `ioBroker.Object`. -/
inductive ObjType
  | state
  | channel
  | device
  | enum
  | adapterInstance
  | other
deriving DecidableEq, Repr

/-- The `common` metadata of an object entry; absent fields are `none`
(JavaScript `undefined`). -/
structure ObjCommon where
  name : Option ObjName := none
  role : Option String := none
  type : Option String := none
  unit : Option String := none
  members : Option (List String) := none
  vendor : Option String := none
  model : Option String := none
deriving DecidableEq, Repr

/-- An object entry. The `!obj` null-row guard of the source is not
modelled: rows carry real objects here. -/
structure IoObject where
  _id : String
  type : ObjType
  common : Option ObjCommon := none
deriving DecidableEq, Repr

/-- `getName` of `mcp-server.ts`: resolve a possibly localized display
name, falling back `name[lang] || name.en || name.de || id`, with the
JavaScript falsiness of absent and empty strings. -/
def getName (name : Option ObjName) (lang id : String) : String :=
  match name with
  | none => id
  | some (.str s) => if s = "" then id else s
  | some (.map m) =>
      jsStr (m.lookup lang) (jsStr (m.lookup "en") (jsStr (m.lookup "de") id))

/-- One step of the `reduce` in `allObjects`: JavaScript object
assignment `obj[id] = value` — replaces the value in place when the key
exists (keeping its original position), appends otherwise. -/
def jsInsert (m : List (String × IoObject)) (k : String) (v : IoObject) :
    List (String × IoObject) :=
  if m.any (fun p => p.1 == k) then
    m.map (fun p => if p.1 = k then (k, v) else p)
  else
    m ++ [(k, v)]

/-- The external object/state store at its boundary: the four bulk
object views consumed by `allObjects` plus the per-state live-value
fetch (`getForeignStateAsync`), which may fail or return `null`. -/
structure Store where
  stateRows : List (String × IoObject)
  channelRows : List (String × IoObject)
  deviceRows : List (String × IoObject)
  enumRows : List (String × IoObject)
  getState : String → Except String (Option LiveValue)

/-- `allObjects` of `mcp-server.ts`: concatenate the state, channel,
device and enum view rows in that order and reduce them into one
JavaScript object keyed by row id (later assignments silently
overwrite). -/
def allObjects (st : Store) : List (String × IoObject) :=
  (st.stateRows ++ st.channelRows ++ st.deviceRows ++ st.enumRows).foldl
    (fun m p => jsInsert m p.1 p.2) []

/-- A control reported by the external type detector: a primary type
tag and the contributing state identifiers (`control.states[].id`,
absent ids encoded as `""`, which the source treats as falsy). -/
structure Control where
  type : String
  states : List String
deriving DecidableEq, Repr

/-- The external classifier capability (`detector.detect` over the full
object map and one candidate identifier), treated as an opaque pure
function. -/
def Classifier : Type :=
  List (String × IoObject) → String → List Control

/-- The `detectedStates` accumulation of `listDevices`: all contributing
state ids of all controls, skipping falsy ids and duplicates. The
source computes this list but never uses it afterwards. -/
def detectedStates (controls : List Control) : List String :=
  controls.foldl
    (fun acc c =>
      c.states.foldl
        (fun a s => if s != "" && !a.contains s then a ++ [s] else a) acc)
    []

/-- An enriched state attached to a device (`DeviceState` of the
source). `value`/`ack`/`ts` are `none` when the live fetch returned
`null` (`stateValue?.val` is `undefined`). -/
structure DeviceState where
  id : String
  role : String
  type : String
  unit : Option String
  value : Option JsVal
  ack : Option Bool
  ts : Option Int
  lc : Option Int
deriving DecidableEq, Repr

/-- A derived device (`Device` of the source). -/
structure Device where
  id : String
  name : String
  room : Option String
  type : String
  vendor : Option String
  model : Option String
  roles : List String
  states : List DeviceState
  tags : List String
deriving DecidableEq, Repr

/-- Does room-enum `e` carry a (truthy) name matching `room`
case-insensitively — as a string, or in any localized variant? -/
def enumNameMatches (e : IoObject) (room : String) : Bool :=
  match e.common.bind ObjCommon.name with
  | none => false
  | some (.str s) => s != "" && jsToLower s == jsToLower room
  | some (.map m) =>
      (m.map Prod.snd).any (fun n => jsToLower n == jsToLower room)

/-- The room-filter preparation of `listDevices`: scan the enum view
rows for the first entry under `enum.rooms.` whose display name matches
the requested room case-insensitively, and take its member list
(`[]` when absent). No match yields `[]`. -/
def findRoomMembers (room : String) : List (String × IoObject) → List String
  | [] => []
  | (_, e) :: rest =>
      if jsStartsWith e._id "enum.rooms." && enumNameMatches e room then
        (e.common.bind ObjCommon.members).getD []
      else findRoomMembers room rest

/-- The room-filter membership test of `listDevices` (`deviceInRoom`):
a grouping entry `id` passes when some member of the selected room is
the entry itself, a descendant or an ancestor of it, or shares the
entry's parent (sibling rule via `parentOf`). -/
def passesRoomFilter (roomMembers : List String) (id : String) : Bool :=
  roomMembers.any (fun member =>
    member == id || jsStartsWith member (id ++ ".") ||
    jsStartsWith id (member ++ ".") ||
    jsStartsWith member (parentOf id ++ "."))

/-- The per-device room resolution loop of `listDevices`: first enum
view row under `enum.rooms.` with a member list one of whose members is
the entry, a descendant or an ancestor of it (no sibling rule here)
yields that enum's resolved display name. -/
def roomOfObject (lang id : String) : List (String × IoObject) → Option String
  | [] => none
  | (_, e) :: rest =>
      match e.common with
      | none => roomOfObject lang id rest
      | some c =>
          match c.members with
          | none => roomOfObject lang id rest
          | some ms =>
              if jsStartsWith e._id "enum.rooms." &&
                  ms.any (fun member =>
                    member == id || jsStartsWith member (id ++ ".") ||
                    jsStartsWith id (member ++ ".")) then
                some (getName c.name lang e._id)
              else roomOfObject lang id rest

/-- Tag extraction of `listDevices`: the regex
`^([^.]+)\.` keeps the first dotted segment when it is non-empty and
followed by a dot; the tag list is that adapter name, or empty. -/
def adapterTags (id : String) : List String :=
  let seg := id.data.takeWhile (· ≠ '.')
  if seg ≠ [] ∧ id.data.drop seg.length ≠ [] then [String.mk seg] else []

/-- Does snapshot pair `p` attach to grouping entry `id` in the
enrichment scan: its key equals `id` or descends from it, and it is of
state kind. The source nests the two checks; they are combined here. -/
def attachesTo (id : String) (p : String × IoObject) : Bool :=
  (jsStartsWith p.1 (id ++ ".") || p.1 == id) && p.2.type == ObjType.state

/-- Build one enriched `DeviceState` from static metadata and the
(possibly `null`) fetched live value, with `lc` included only when it
differs from `ts`. -/
def mkDeviceState (sid : String) (sobj : IoObject)
    (sv : Option LiveValue) : DeviceState :=
  { id := sid
    role := jsStr (sobj.common.bind ObjCommon.role) ""
    type := jsStr (sobj.common.bind ObjCommon.type) "mixed"
    unit := sobj.common.bind ObjCommon.unit
    value := sv.map LiveValue.val
    ack := sv.map LiveValue.ack
    ts := sv.map LiveValue.ts
    lc := match sv with
      | some v => if v.lc != v.ts then some v.lc else none
      | none => none }

/-- The state-enrichment scan of `listDevices`: walk the whole merged
object map in insertion order, and for every state-kind entry at or
below `id` fetch its live value (an uncaught failure aborts the scan),
accumulating the enriched state list and the deduplicated non-empty
role list. -/
def collectStates (gs : String → Except String (Option LiveValue))
    (id : String) :
    List (String × IoObject) → List DeviceState × List String →
      Except String (List DeviceState × List String)
  | [], acc => .ok acc
  | (sid, sobj) :: rest, acc =>
      if attachesTo id (sid, sobj) then
        match gs sid with
        | .error e => .error e
        | .ok sv =>
            collectStates gs id rest
              (acc.1 ++ [mkDeviceState sid sobj sv],
               if (mkDeviceState sid sobj sv).role != "" &&
                   !acc.2.contains (mkDeviceState sid sobj sv).role then
                 acc.2 ++ [(mkDeviceState sid sobj sv).role]
               else acc.2)
      else collectStates gs id rest acc

/-- The per-entry body of the `listDevices` main loop: skip non-grouping
entries and entries failing an active room filter; otherwise classify
(first control's type, `"unknown"` when there is none), resolve name,
room and tags, enrich the attached states, and emit a device unless the
enriched state list is empty. -/
def deviceFor (objects enumRows : List (String × IoObject))
    (gs : String → Except String (Option LiveValue)) (classify : Classifier)
    (roomOn : Bool) (roomMembers : List String)
    (id : String) (obj : IoObject) : Except String (Option Device) :=
  if obj.type != ObjType.device && obj.type != ObjType.channel then .ok none
  else if roomOn && !passesRoomFilter roomMembers id then .ok none
  else
    match collectStates gs id objects ([], []) with
    | .error e => .error e
    | .ok (deviceStates, roles) =>
        if deviceStates.isEmpty then .ok none
        else .ok (some
          { id := "device:" ++ id
            name := getName (obj.common.bind ObjCommon.name) "en" id
            room := roomOfObject "en" id enumRows
            type := match (classify objects id).head? with
              | some c => c.type
              | none => "unknown"
            vendor := obj.common.bind ObjCommon.vendor
            model := obj.common.bind ObjCommon.model
            roles := roles
            states := deviceStates
            tags := adapterTags id })

/-- The main loop of `listDevices` over the merged object map in
insertion order (the `devicesMap` keyed by unique ids preserves exactly
this order), propagating the first enrichment failure. -/
def listDevicesLoop (objects enumRows : List (String × IoObject))
    (gs : String → Except String (Option LiveValue)) (classify : Classifier)
    (roomOn : Bool) (roomMembers : List String) :
    List (String × IoObject) → Except String (List Device)
  | [] => .ok []
  | (id, obj) :: rest =>
      match deviceFor objects enumRows gs classify roomOn roomMembers id obj with
      | .error e => .error e
      | .ok none => listDevicesLoop objects enumRows gs classify roomOn roomMembers rest
      | .ok (some d) =>
          match listDevicesLoop objects enumRows gs classify roomOn roomMembers rest with
          | .error e => .error e
          | .ok ds => .ok (d :: ds)

/-- `listDevices` before pagination: merge the snapshot, prepare the
room member list when a (truthy) room filter is given, and run the main
loop — the room-filtered ordered device list. -/
def buildDevices (st : Store) (classify : Classifier)
    (room : Option String) : Except String (List Device) :=
  let objects := allObjects st
  let roomOn := jsTruthy room
  let roomMembers :=
    if roomOn then findRoomMembers (room.getD "") st.enumRows else []
  listDevicesLoop objects st.enumRows st.getState classify roomOn roomMembers objects

/-- Result payload of `listDevices`. -/
structure ListResult where
  total : Nat
  devices : List Device
deriving DecidableEq, Repr

/-- `listDevices` of `mcp-server.ts`: build the room-filtered device
list, then `total = allDevices.length` and
`devices = allDevices.slice(offset, offset + limit)` with defaults
`limit = 100`, `offset = 0` (non-negative parameters; JavaScript
`slice` is drop/take for these). -/
def listDevices (st : Store) (classify : Classifier) (room : Option String)
    (limit offset : Option Nat) : Except String ListResult :=
  match buildDevices st classify room with
  | .error e => .error e
  | .ok allDevices =>
      .ok { total := allDevices.length
            devices := (allDevices.drop (offset.getD 0)).take (limit.getD 100) }

/-- A record of the `get_states` batch response: one per requested id.
Absent and failing states carry a JavaScript `null` value; a failure
additionally carries the error message. -/
structure StateRecord where
  id : String
  value : JsVal
  ack : Bool
  ts : Int
  lc : Option Int
  error : Option String
deriving DecidableEq, Repr

/-- The per-id loop body of `handleGetStates`, as an independent per-id
record: a successful fetch copies value/ack/ts (and `lc` only when it
differs from `ts`); a `null` state yields a null-valued record with the
current timestamp; a throwing fetch is caught into an `error` field. -/
def recordOf (gs : String → Except String (Option LiveValue)) (now : Int)
    (id : String) : StateRecord :=
  match gs id with
  | .ok (some st) =>
      { id := id, value := st.val, ack := st.ack, ts := st.ts
        lc := if st.lc != st.ts then some st.lc else none, error := none }
  | .ok none =>
      { id := id, value := JsVal.null, ack := false, ts := now
        lc := none, error := none }
  | .error e =>
      { id := id, value := JsVal.null, ack := false, ts := now
        lc := none, error := some e }

/-- The `for (const id of params.ids)` loop of `handleGetStates`: push
exactly one record per requested id, in order, catching each fetch
failure inside the iteration. -/
def getStatesRecords (gs : String → Except String (Option LiveValue))
    (now : Int) : List String → List StateRecord
  | [] => []
  | id :: rest => recordOf gs now id :: getStatesRecords gs now rest

/-- Response of `handleGetStates`: parameter validation failure, or the
success envelope with the batch records. -/
inductive GetStatesResult
  | invalidParams
  | ok (states : List StateRecord)
deriving DecidableEq, Repr

/-- `handleGetStates` of `mcp-server.ts`: missing/non-array `ids`
yields the 400 client-error envelope
(`Invalid params: ids array is required`); otherwise the 200 success
envelope with one record per id. -/
def handleGetStates (ids : Option (List String))
    (gs : String → Except String (Option LiveValue)) (now : Int) :
    Nat × GetStatesResult :=
  match ids with
  | none => (400, .invalidParams)
  | some ids => (200, .ok (getStatesRecords gs now ids))

/-- The uniform failure envelope `{ok: false, error}` of the RPC
endpoint. -/
structure Envelope where
  ok : Bool
  error : Option String
deriving DecidableEq, Repr

/-- Outcome of the `/api/rpc` method dispatch chain: an error response,
or the invocation of one of the two implemented operation handlers. -/
inductive RpcAction
  | methodRequired
  | getStates
  | listAdapters
  | unknown (m : String)
deriving DecidableEq, Repr

/-- The dispatch chain of the `/api/rpc` route: a falsy method (absent
or empty) is rejected, `get_states` and `list_adapters` invoke their
handlers, and every other name falls through to the unknown-method
response. -/
def rpcDispatch : Option String → RpcAction
  | none => .methodRequired
  | some m =>
      if m = "" then .methodRequired
      else if m = "get_states" then .getStates
      else if m = "list_adapters" then .listAdapters
      else .unknown m

/-- The HTTP response written for the two dispatch error outcomes
(`none` when a handler is invoked and writes its own response). -/
def rpcResponse : RpcAction → Option (Nat × Envelope)
  | .methodRequired => some (400, { ok := false, error := some "Method is required" })
  | .unknown m => some (400, { ok := false, error := some ("Unknown method: " ++ m) })
  | _ => none

/-- The parsed RPC request body; only the `method` field drives
dispatch. -/
structure RpcBody where
  method : Option String
deriving DecidableEq, Repr

/-- The JSON body-parser middleware of `initRoutes`: `JSON.parse` of
the raw POST body, with a parse failure caught and replaced by the
empty object `{}` (whose `method` field is `undefined`). The parse
itself is external; its outcome is the `Except` argument. -/
def parseBody : Except String RpcBody → RpcBody
  | .ok b => b
  | .error _ => { method := none }

/-- The system environment read by the `/api/system_info` route:
host object version, `os` facts, `process.version`, and the registered
adapter instances. `os.uptime()` is the operating-system uptime;
`process.uptime()` (read only by the separate `/status` route) is kept
alongside it to state claims about which one is reported. -/
structure SysEnv where
  installedVersion : Option String
  hostname : String
  platform : String
  processVersion : String
  loadavg1 : ℚ
  totalmemBytes : ℕ
  freememBytes : ℕ
  osUptimeSec : ℚ
  procUptimeSec : ℚ
  instanceIds : List String
deriving Repr

/-- JavaScript `Math.round` on a finite number: `⌊x + 1/2⌋`. -/
def jsRound (q : ℚ) : ℤ :=
  ⌊q + 1 / 2⌋

/-- `parseFloat(x.toFixed(2))` as rounding to two decimal places (exact
for the non-tie rationals arising here). -/
def roundTo2 (q : ℚ) : ℚ :=
  (jsRound (q * 100) : ℚ) / 100

/-- Payload of the `/api/system_info` success envelope. -/
structure SystemInfo where
  js_controller : String
  hostname : String
  platform : String
  node : String
  cpu_load : ℚ
  total_mb : ℤ
  used_mb : ℤ
  uptime_sec : ℤ
  instances : ℕ
deriving DecidableEq, Repr

/-- The `/api/system_info` aggregation: js-controller version with
`'unknown'` fallback, hostname, platform, `process.version` without its
leading `v`, the 1-minute load average to two decimals, total and used
memory in whole megabytes, `os.uptime()` rounded to whole seconds, and
the count of registered instances. -/
def systemInfo (env : SysEnv) : SystemInfo :=
  let totalMem := jsRound ((env.totalmemBytes : ℚ) / (1024 * 1024))
  let freeMem := jsRound ((env.freememBytes : ℚ) / (1024 * 1024))
  { js_controller := jsStr env.installedVersion "unknown"
    hostname := env.hostname
    platform := env.platform
    node := String.mk (env.processVersion.data.drop 1)
    cpu_load := roundTo2 env.loadavg1
    total_mb := totalMem
    used_mb := totalMem - freeMem
    uptime_sec := jsRound env.osUptimeSec
    instances := env.instanceIds.length }

/-! ### Concrete fixtures used by witnesses and counterexamples -/

/-- A state object `a.b.s` with role `r` and declared type `number`. -/
def stateObjS : IoObject :=
  { _id := "a.b.s", type := ObjType.state
    common := some { role := some "r", type := some "number" } }

/-- A second state object `a.b.t`. -/
def stateObjT : IoObject :=
  { _id := "a.b.t", type := ObjType.state
    common := some { role := some "t", type := some "number" } }

/-- A channel object `a.b` named `Dev`. -/
def chanObjB : IoObject :=
  { _id := "a.b", type := ObjType.channel
    common := some { name := some (ObjName.str "Dev") } }

/-- Store with one channel `a.b` and one state `a.b.s` below it; every
live-value fetch returns `null`. -/
def S1 : Store :=
  { stateRows := [("a.b.s", stateObjS)]
    channelRows := [("a.b", chanObjB)]
    deviceRows := []
    enumRows := []
    getState := fun _ => .ok none }

/-- Classifier answering one `light` control for `a.b` whose only
contributing state identifier `x.y` is not below `a.b`. -/
def cl1 : Classifier :=
  fun _ id => if id == "a.b" then [{ type := "light", states := ["x.y"] }] else []

/-- Classifier returning no control for anything. -/
def cl0 : Classifier :=
  fun _ _ => []

/-- The enriched state record for `a.b.s` under a `null` live value. -/
def ds1 : DeviceState :=
  { id := "a.b.s", role := "r", type := "number", unit := none
    value := none, ack := none, ts := none, lc := none }

/-- The device emitted for `a.b` in store `S1` under classifier `cl1`. -/
def D1 : Device :=
  { id := "device:a.b", name := "Dev", room := none, type := "light"
    vendor := none, model := none, roles := ["r"], states := [ds1]
    tags := ["a"] }

/-- A state object `x.y.dev.s`. -/
def stateObj3 : IoObject :=
  { _id := "x.y.dev.s", type := ObjType.state
    common := some { role := some "r", type := some "number" } }

/-- A channel object `x.y.dev` named `Dev3`. -/
def chanObj3 : IoObject :=
  { _id := "x.y.dev", type := ObjType.channel
    common := some { name := some (ObjName.str "Dev3") } }

/-- A room enumeration `enum.rooms.a` named `Living` whose only member
`x.y.sib` is a sibling of `x.y.dev` (shares the parent `x.y`), not the
entry itself, an ancestor or a descendant. -/
def enumObjA : IoObject :=
  { _id := "enum.rooms.a", type := ObjType.enum
    common := some { name := some (ObjName.str "Living")
                     members := some ["x.y.sib"] } }

/-- Store for the room-count counterexample: channel `x.y.dev` with
state `x.y.dev.s`, and the `Living` room containing only the sibling
`x.y.sib`. -/
def S3 : Store :=
  { stateRows := [("x.y.dev.s", stateObj3)]
    channelRows := [("x.y.dev", chanObj3)]
    deviceRows := []
    enumRows := [("enum.rooms.a", enumObjA)]
    getState := fun _ => .ok none }

/-- The enriched state record for `x.y.dev.s` under a `null` live
value. -/
def ds3 : DeviceState :=
  { id := "x.y.dev.s", role := "r", type := "number", unit := none
    value := none, ack := none, ts := none, lc := none }

/-- The device emitted for `x.y.dev` in store `S3`: its resolved room
is `none`, since the membership rule used for resolution has no
sibling clause. -/
def D3 : Device :=
  { id := "device:x.y.dev", name := "Dev3", room := none, type := "unknown"
    vendor := none, model := none, roles := ["r"], states := [ds3]
    tags := ["x"] }

/-- Fetch failing exactly on `a.b.s` and returning `null` elsewhere. -/
def gs5 : String → Except String (Option LiveValue) :=
  fun id => if id == "a.b.s" then .error "boom" else .ok none

/-- Store with channel `a.b` and two states below it, whose live-value
fetch fails for `a.b.s` and succeeds for `a.b.t`. -/
def S5 : Store :=
  { stateRows := [("a.b.s", stateObjS), ("a.b.t", stateObjT)]
    channelRows := [("a.b", chanObjB)]
    deviceRows := []
    enumRows := []
    getState := gs5 }

/-- A state-kind object used as the earlier entry of a key collision. -/
def objA : IoObject :=
  { _id := "x", type := ObjType.state }

/-- A channel-kind object used as the later entry of a key collision. -/
def objB : IoObject :=
  { _id := "x", type := ObjType.channel }

/-- Store whose state view and channel view both contain the key `x`,
with different objects. -/
def S6 : Store :=
  { stateRows := [("x", objA)]
    channelRows := [("x", objB)]
    deviceRows := []
    enumRows := []
    getState := fun _ => .ok none }


/-- A system environment whose operating-system uptime (100 s) differs
from its process uptime (5 s). -/
def env9 : SysEnv :=
  { installedVersion := some "7.0.7"
    hostname := "host1"
    platform := "linux"
    processVersion := "v20.11.1"
    loadavg1 := 1 / 4
    totalmemBytes := 2097152
    freememBytes := 1048576
    osUptimeSec := 100
    procUptimeSec := 5
    instanceIds := ["system.adapter.mcp.0"] }

/-! ### Lemmas about the snapshot merge -/

/-- `List.lookup` at a cons whose key is the looked-up one. -/
lemma lookup_cons_self (k : String) (b : IoObject)
    (l : List (String × IoObject)) :
    List.lookup k ((k, b) :: l) = some b := by
  simp [List.lookup]

/-- `List.lookup` skips a cons with a different key. -/
lemma lookup_cons_ne (k a : String) (b : IoObject)
    (l : List (String × IoObject)) (h : k ≠ a) :
    List.lookup k ((a, b) :: l) = List.lookup k l := by
  simp [List.lookup, beq_eq_false_iff_ne.mpr h]

/-- Looking up a key after a JavaScript object assignment with that key
yields the newly assigned value. -/
lemma lookup_jsInsert_self (m : List (String × IoObject)) (k : String)
    (v : IoObject) : List.lookup k (jsInsert m k v) = some v := by
  unfold jsInsert
  by_cases h : m.any (fun p => p.1 == k)
  · rw [if_pos h]
    induction m with
    | nil => simp at h
    | cons p rest ih =>
        obtain ⟨a, b⟩ := p
        by_cases ha : a = k
        · subst ha
          simp [lookup_cons_self]
        · have hrest : rest.any (fun p => p.1 == k) = true := by
            simpa [List.any_cons, ha] using h
          have hka : k ≠ a := fun hk => ha hk.symm
          simpa [ha, lookup_cons_ne k a b _ hka] using ih hrest
  · rw [if_neg h]
    induction m with
    | nil => simp [lookup_cons_self]
    | cons p rest ih =>
        obtain ⟨a, b⟩ := p
        have ha : ¬a = k := by
          intro hak
          exact h (by simp [List.any_cons, hak])
        have hrest : ¬rest.any (fun p => p.1 == k) = true := by
          intro hr
          exact h (by simp [List.any_cons, hr])
        have hka : k ≠ a := fun hk => ha hk.symm
        rw [List.cons_append, lookup_cons_ne k a b _ hka]
        exact ih hrest

/-- A JavaScript object assignment with key `k` leaves lookups of every
other key unchanged. -/
lemma lookup_jsInsert_other (m : List (String × IoObject)) (k : String)
    (v : IoObject) (k' : String) (hne : k' ≠ k) :
    List.lookup k' (jsInsert m k v) = List.lookup k' m := by
  unfold jsInsert
  by_cases h : m.any (fun p => p.1 == k)
  · rw [if_pos h]
    clear h
    induction m with
    | nil => simp
    | cons p rest ih =>
        obtain ⟨a, b⟩ := p
        by_cases ha : a = k
        · subst ha
          simp only [List.map_cons, eq_self_iff_true, if_true]
          rw [lookup_cons_ne k' a v _ hne, lookup_cons_ne k' a b _ hne]
          exact ih
        · by_cases hk'a : k' = a
          · subst hk'a
            simp only [List.map_cons, if_neg ha]
            rw [lookup_cons_self, lookup_cons_self]
          · simp only [List.map_cons, if_neg ha]
            rw [lookup_cons_ne k' a b _ hk'a, lookup_cons_ne k' a b _ hk'a]
            exact ih
  · rw [if_neg h]
    clear h
    induction m with
    | nil =>
        simpa using lookup_cons_ne k' k v [] hne
    | cons p rest ih =>
        obtain ⟨a, b⟩ := p
        by_cases hk'a : k' = a
        · subst hk'a
          rw [List.cons_append, lookup_cons_self, lookup_cons_self]
        · rw [List.cons_append, lookup_cons_ne k' a b _ hk'a,
            lookup_cons_ne k' a b _ hk'a]
          exact ih

/-- C6, counterexample. In store `S6` the state view and the channel
view share the key `x` with different objects; `allObjects` silently
binds `x` to the later kind's object `objB`, dropping `objA` — its
return type has no error outlet, so no invariant violation can be
reported. The claim that the collision is reported rather than
overwriting is therefore false on this input. -/
theorem C6_counterexample :
    allObjects S6 = [("x", objB)] ∧
    List.lookup "x" (allObjects S6) = some objB ∧
    objB ≠ objA := by
  refine ⟨rfl, rfl, ?_⟩
  decide

/-- C6, amended. The snapshot merge silently overwrites: one reduce
step (`jsInsert`, the JavaScript assignment `obj[item.id] = item.value`)
rebinds an already present identifier to the later kind's value and
leaves every other identifier untouched; no collision is detected or
reported. -/
theorem C6_amended :
    (∀ (m : List (String × IoObject)) (k : String) (v : IoObject),
      List.lookup k (jsInsert m k v) = some v) ∧
    (∀ (m : List (String × IoObject)) (k : String) (v : IoObject)
      (k' : String), k' ≠ k →
      List.lookup k' (jsInsert m k v) = List.lookup k' m) :=
  ⟨lookup_jsInsert_self, lookup_jsInsert_other⟩

/-- C6, witness for the amended theorem at a concrete collision. -/
theorem C6_amended_witness :
    List.lookup "x" (jsInsert [("x", objA)] "x" objB) = some objB ∧
    List.lookup "y" (jsInsert [("x", objA)] "x" objB) =
      List.lookup "y" [("x", objA)] :=
  ⟨C6_amended.1 [("x", objA)] "x" objB,
   C6_amended.2 [("x", objA)] "x" objB "y" (by decide)⟩

/-! ### The RPC dispatch chain -/

/-- C7, counterexample. `list devices` is an operation of the §4.5
table, but the dispatch chain of `/api/rpc` does not route it to any
handler: the name falls through to the unknown-method client-error
envelope. -/
theorem C7_counterexample :
    rpcDispatch (some "list_devices") = RpcAction.unknown "list_devices" ∧
    rpcDispatch (some "list_devices") ≠ RpcAction.getStates ∧
    rpcDispatch (some "list_devices") ≠ RpcAction.listAdapters ∧
    rpcResponse (RpcAction.unknown "list_devices") =
      some (400, { ok := false, error := some "Unknown method: list_devices" }) := by
  refine ⟨rfl, by decide, by decide, rfl⟩

/-- C7, amended. The dispatch chain recognizes exactly `get_states` and
`list_adapters`; every other non-empty method name — including the
remaining §4.5 operations — yields the client-error envelope
`{ok: false, error: "Unknown method: <name>"}`, and an absent method
yields the client-error envelope `{ok: false, error: "Method is
required"}`. -/
theorem C7_amended :
    rpcDispatch (some "get_states") = RpcAction.getStates ∧
    rpcDispatch (some "list_adapters") = RpcAction.listAdapters ∧
    rpcDispatch none = RpcAction.methodRequired ∧
    rpcResponse RpcAction.methodRequired =
      some (400, { ok := false, error := some "Method is required" }) ∧
    (∀ m : String, m ≠ "" → m ≠ "get_states" → m ≠ "list_adapters" →
      rpcDispatch (some m) = RpcAction.unknown m ∧
      rpcResponse (RpcAction.unknown m) =
        some (400, { ok := false, error := some ("Unknown method: " ++ m) })) := by
  refine ⟨rfl, rfl, rfl, rfl, ?_⟩
  intro m h1 h2 h3
  constructor
  · show (if m = "" then RpcAction.methodRequired
      else if m = "get_states" then RpcAction.getStates
      else if m = "list_adapters" then RpcAction.listAdapters
      else RpcAction.unknown m) = RpcAction.unknown m
    rw [if_neg h1, if_neg h2, if_neg h3]
  · rfl

/-- C7, witness for the amended theorem: the table operation
`system_info` falls through to the unknown-method envelope. -/
theorem C7_amended_witness :
    rpcDispatch (some "system_info") = RpcAction.unknown "system_info" ∧
    rpcResponse (RpcAction.unknown "system_info") =
      some (400, { ok := false, error := some "Unknown method: system_info" }) :=
  C7_amended.2.2.2.2 "system_info" (by decide) (by decide) (by decide)

/-- C10: a POST body that fails JSON parsing is replaced by the empty
object, whose absent method dispatches to the `Method is required`
client-error envelope (HTTP 400 with `ok: false`) — never a server
error or an uncaught exception. -/
theorem C10_invalid_body (e : String) :
    rpcDispatch (parseBody (.error e)).method = RpcAction.methodRequired ∧
    rpcResponse RpcAction.methodRequired =
      some (400, { ok := false, error := some "Method is required" }) :=
  ⟨rfl, rfl⟩


/-! ### The get_states batch read -/

/-- The per-id loop of `handleGetStates` is an independent map: one
record per requested id, in request order, each depending only on that
id's own fetch. -/
lemma getStatesRecords_eq_map (gs : String → Except String (Option LiveValue))
    (now : Int) (ids : List String) :
    getStatesRecords gs now ids = ids.map (recordOf gs now) := by
  induction ids with
  | nil => rfl
  | cons id rest ih => simp [getStatesRecords, ih]

/-- C8: `get_states` returns the 200 success envelope with exactly one
record per requested id in order; an id whose state is absent yields a
null-valued record with `ack: false` and the current timestamp; a
throwing fetch is isolated into that id's record via its `error` field
(all other records being the independent per-id record they would be in
any batch); a present state copies its live fields, `lc` only when it
differs from `ts`. -/
theorem C8_get_states_batch (ids : List String)
    (gs : String → Except String (Option LiveValue)) (now : Int) :
    handleGetStates (some ids) gs now =
      (200, GetStatesResult.ok (ids.map (recordOf gs now))) ∧
    (∀ id, gs id = .ok none →
      recordOf gs now id =
        { id := id, value := JsVal.null, ack := false, ts := now
          lc := none, error := none }) ∧
    (∀ id e, gs id = .error e →
      recordOf gs now id =
        { id := id, value := JsVal.null, ack := false, ts := now
          lc := none, error := some e }) ∧
    (∀ id st, gs id = .ok (some st) →
      recordOf gs now id =
        { id := id, value := st.val, ack := st.ack, ts := st.ts
          lc := if st.lc != st.ts then some st.lc else none
          error := none }) := by
  refine ⟨?_, ?_, ?_, ?_⟩
  · simp [handleGetStates, getStatesRecords_eq_map]
  · intro id h
    simp [recordOf, h]
  · intro id e h
    simp [recordOf, h]
  · intro id st h
    simp [recordOf, h]

/-- A sample live value whose last-change differs from its
last-update. -/
def lv8 : LiveValue :=
  { val := JsVal.num 22, ack := true, ts := 5, lc := 3 }

/-- A fetch that succeeds with `lv8` on `present`, fails on `bad`, and
finds no state elsewhere. -/
def gs8 : String → Except String (Option LiveValue) :=
  fun id =>
    if id = "bad" then .error "boom"
    else if id = "present" then .ok (some lv8)
    else .ok none

/-- C8, witness: a concrete three-id batch with one present, one
missing and one failing id. -/
theorem C8_get_states_batch_witness :
    handleGetStates (some ["present", "missing", "bad"]) gs8 7 =
      (200, GetStatesResult.ok
        (["present", "missing", "bad"].map (recordOf gs8 7))) ∧
    recordOf gs8 7 "missing" =
      { id := "missing", value := JsVal.null, ack := false, ts := 7
        lc := none, error := none } ∧
    recordOf gs8 7 "bad" =
      { id := "bad", value := JsVal.null, ack := false, ts := 7
        lc := none, error := some "boom" } ∧
    recordOf gs8 7 "present" =
      { id := "present", value := JsVal.num 22, ack := true, ts := 5
        lc := if (3 : Int) != 5 then some 3 else none, error := none } :=
  ⟨(C8_get_states_batch ["present", "missing", "bad"] gs8 7).1,
   (C8_get_states_batch ["present", "missing", "bad"] gs8 7).2.1 "missing" rfl,
   (C8_get_states_batch ["present", "missing", "bad"] gs8 7).2.2.1 "bad" "boom" rfl,
   (C8_get_states_batch ["present", "missing", "bad"] gs8 7).2.2.2 "present" lv8 rfl⟩

/-! ### The system_info aggregation -/

/-- `jsRound` is the identity on integers. -/
lemma jsRound_intCast (n : ℤ) : jsRound ((n : ℚ)) = n := by
  unfold jsRound
  rw [Int.floor_eq_iff]
  constructor
  · linarith
  · linarith

/-- `jsRound` is genuine rounding: it lands within half a unit of its
argument. -/
lemma jsRound_close (q : ℚ) : |(jsRound q : ℚ) - q| ≤ 1 / 2 := by
  unfold jsRound
  rw [abs_le]
  constructor
  · have h := Int.lt_floor_add_one (q + 1 / 2)
    push_cast at h ⊢
    linarith
  · have h := Int.floor_le (q + 1 / 2)
    push_cast at h ⊢
    linarith

/-- C9, counterexample. The route reports `os.uptime()` — the operating
system's uptime — not the process uptime: in an environment where the
system has been up 100 seconds but the process only 5, the reported
`uptime_sec` is 100. Memory totals are correctly reported in whole
megabytes (2 MB total, 1 MB used here). -/
theorem C9_counterexample :
    (systemInfo env9).uptime_sec = 100 ∧
    jsRound env9.procUptimeSec = 5 ∧
    ¬(systemInfo env9).uptime_sec = jsRound env9.procUptimeSec ∧
    (systemInfo env9).total_mb = 2 ∧
    (systemInfo env9).used_mb = 1 := by
  have ht : (env9.totalmemBytes : ℚ) / (1024 * 1024) = ((2 : ℤ) : ℚ) := by
    norm_num [env9]
  have hf : (env9.freememBytes : ℚ) / (1024 * 1024) = ((1 : ℤ) : ℚ) := by
    norm_num [env9]
  have hu : env9.osUptimeSec = ((100 : ℤ) : ℚ) := by
    norm_num [env9]
  have hp : env9.procUptimeSec = ((5 : ℤ) : ℚ) := by
    norm_num [env9]
  refine ⟨?_, ?_, ?_, ?_, ?_⟩
  · show jsRound env9.osUptimeSec = 100
    rw [hu, jsRound_intCast]
  · rw [hp, jsRound_intCast]
  · show ¬jsRound env9.osUptimeSec = jsRound env9.procUptimeSec
    rw [hu, hp, jsRound_intCast, jsRound_intCast]
    decide
  · show jsRound ((env9.totalmemBytes : ℚ) / (1024 * 1024)) = 2
    rw [ht, jsRound_intCast]
  · show jsRound ((env9.totalmemBytes : ℚ) / (1024 * 1024)) -
        jsRound ((env9.freememBytes : ℚ) / (1024 * 1024)) = 1
    rw [ht, hf, jsRound_intCast, jsRound_intCast]
    decide

/-- C9, amended. `system_info` reports the host version (with `unknown`
fallback), hostname, platform, process version without its `v` prefix,
the 1-minute load average to two decimals, memory totals rounded to
whole megabytes (within half a megabyte of the true quotient), the
operating-system uptime — not the process uptime — rounded to whole
seconds (within half a second), and the count of registered
instances. -/
theorem C9_system_info (env : SysEnv) :
    (systemInfo env).uptime_sec = jsRound env.osUptimeSec ∧
    |((systemInfo env).uptime_sec : ℚ) - env.osUptimeSec| ≤ 1 / 2 ∧
    (systemInfo env).total_mb = jsRound ((env.totalmemBytes : ℚ) / (1024 * 1024)) ∧
    |((systemInfo env).total_mb : ℚ) - (env.totalmemBytes : ℚ) / (1024 * 1024)| ≤ 1 / 2 ∧
    (systemInfo env).used_mb =
      (systemInfo env).total_mb - jsRound ((env.freememBytes : ℚ) / (1024 * 1024)) ∧
    (systemInfo env).js_controller = jsStr env.installedVersion "unknown" ∧
    (systemInfo env).hostname = env.hostname ∧
    (systemInfo env).platform = env.platform ∧
    (systemInfo env).node = String.mk (env.processVersion.data.drop 1) ∧
    (systemInfo env).cpu_load = roundTo2 env.loadavg1 ∧
    (systemInfo env).instances = env.instanceIds.length := by
  refine ⟨rfl, ?_, rfl, ?_, rfl, rfl, rfl, rfl, rfl, rfl, rfl⟩
  · exact jsRound_close env.osUptimeSec
  · exact jsRound_close ((env.totalmemBytes : ℚ) / (1024 * 1024))


/-! ### Lemmas about device grouping and enrichment -/

/-- The enriched record keeps the scanned identifier. -/
@[simp] lemma mkDeviceState_id (sid : String) (sobj : IoObject)
    (sv : Option LiveValue) : (mkDeviceState sid sobj sv).id = sid :=
  rfl

/-- A successful enrichment scan returns exactly the state-kind entries
at or below the grouping identifier, in snapshot order (appended to the
accumulator). -/
lemma collectStates_ok_ids (gs : String → Except String (Option LiveValue))
    (id : String) :
    ∀ (pairs : List (String × IoObject))
      (acc out : List DeviceState × List String),
      collectStates gs id pairs acc = .ok out →
      out.1.map DeviceState.id =
        acc.1.map DeviceState.id ++
          (pairs.filter (attachesTo id)).map Prod.fst := by
  intro pairs
  induction pairs with
  | nil =>
      intro acc out h
      simp only [collectStates] at h
      cases h
      simp
  | cons p rest ih =>
      obtain ⟨sid, sobj⟩ := p
      intro acc out h
      simp only [collectStates] at h
      by_cases hat : attachesTo id (sid, sobj) = true
      · rw [if_pos hat] at h
        cases hgs : gs sid with
        | error e =>
            rw [hgs] at h
            cases h
        | ok sv =>
            rw [hgs] at h
            have hrec := ih _ _ h
            rw [hrec]
            simp [hat, List.filter_cons]
      · rw [if_neg hat] at h
        have hrec := ih _ _ h
        rw [hrec]
        simp [hat, List.filter_cons]

/-- Characterization of a device emitted by the loop body: the entry is
a grouping entry passing any active room filter; the device's id wraps
the grouping id, its type is the first control's type tag (`"unknown"`
without controls), and its state list is exactly the state-kind entries
at or below the grouping id — non-empty. -/
lemma deviceFor_some_spec (objects enumRows : List (String × IoObject))
    (gs : String → Except String (Option LiveValue)) (classify : Classifier)
    (roomOn : Bool) (roomMembers : List String) (id : String)
    (obj : IoObject) (d : Device)
    (h : deviceFor objects enumRows gs classify roomOn roomMembers id obj =
      .ok (some d)) :
    (obj.type = ObjType.device ∨ obj.type = ObjType.channel) ∧
    (roomOn = true → passesRoomFilter roomMembers id = true) ∧
    d.id = "device:" ++ id ∧
    d.type = (match (classify objects id).head? with
      | some c => c.type
      | none => "unknown") ∧
    d.states.map DeviceState.id =
      (objects.filter (attachesTo id)).map Prod.fst ∧
    d.states ≠ [] := by
  unfold deviceFor at h
  by_cases h1 : (obj.type != ObjType.device && obj.type != ObjType.channel) = true
  · rw [if_pos h1] at h
    simp at h
  · rw [if_neg h1] at h
    by_cases h2 : (roomOn && !passesRoomFilter roomMembers id) = true
    · rw [if_pos h2] at h
      simp at h
    · rw [if_neg h2] at h
      cases hcs : collectStates gs id objects ([], []) with
      | error e =>
          rw [hcs] at h
          cases h
      | ok pr =>
          obtain ⟨deviceStates, roles⟩ := pr
          rw [hcs] at h
          cases deviceStates with
          | nil => simp at h
          | cons s ss =>
              have hids :=
                collectStates_ok_ids gs id objects ([], []) (s :: ss, roles) hcs
              dsimp only at h
              rw [List.isEmpty_cons, if_neg Bool.false_ne_true] at h
              have hd := Option.some.inj (Except.ok.inj h)
              subst hd
              refine ⟨?_, ?_, rfl, rfl, ?_, ?_⟩
              · by_contra hc
                push_neg at hc
                exact h1 (by simp [hc.1, hc.2])
              · intro hro
                subst hro
                by_contra hp
                rw [Bool.not_eq_true] at hp
                exact h2 (by simp [hp])
              · simpa using hids
              · simp

/-- Every device produced by the main loop has a non-empty state
list. -/
lemma listDevicesLoop_states_ne (objects enumRows : List (String × IoObject))
    (gs : String → Except String (Option LiveValue)) (classify : Classifier)
    (roomOn : Bool) (roomMembers : List String) :
    ∀ (pairs : List (String × IoObject)) (ds : List Device),
      listDevicesLoop objects enumRows gs classify roomOn roomMembers pairs =
        .ok ds →
      ∀ d ∈ ds, d.states ≠ [] := by
  intro pairs
  induction pairs with
  | nil =>
      intro ds h
      simp only [listDevicesLoop] at h
      cases h
      simp
  | cons p rest ih =>
      obtain ⟨id, obj⟩ := p
      intro ds h
      simp only [listDevicesLoop] at h
      cases hdf : deviceFor objects enumRows gs classify roomOn roomMembers id obj with
      | error e =>
          rw [hdf] at h
          cases h
      | ok od =>
          rw [hdf] at h
          cases od with
          | none => exact ih ds h
          | some d0 =>
              dsimp only at h
              cases hrec : listDevicesLoop objects enumRows gs classify roomOn
                  roomMembers rest with
              | error e =>
                  rw [hrec] at h
                  cases h
              | ok ds' =>
                  rw [hrec] at h
                  have hds := Except.ok.inj h
                  subst hds
                  intro d hd
                  rcases List.mem_cons.mp hd with rfl | hmem
                  · exact (deviceFor_some_spec objects enumRows gs classify roomOn
                      roomMembers id obj d hdf).2.2.2.2.2
                  · exact ih ds' hrec d hmem

/-- C4: every device in a successful `listDevices` result has a
non-empty state list — a grouping entry that collects no state-kind
entries is discarded before emission. -/
theorem C4_nonempty_states (st : Store) (classify : Classifier)
    (room : Option String) (limit offset : Option Nat) (r : ListResult)
    (h : listDevices st classify room limit offset = .ok r) :
    ∀ d ∈ r.devices, d.states ≠ [] := by
  unfold listDevices at h
  cases hb : buildDevices st classify room with
  | error e =>
      rw [hb] at h
      cases h
  | ok L =>
      rw [hb] at h
      dsimp only at h
      have hr := Except.ok.inj h
      subst hr
      intro d hd
      have hdL : d ∈ L :=
        List.drop_subset _ _ (List.take_subset _ _ hd)
      simp only [buildDevices] at hb
      exact listDevicesLoop_states_ne (allObjects st) st.enumRows st.getState
        classify (jsTruthy room) _ (allObjects st) L hb d hdL

/-- C4, witness: the concrete device emitted for store `S3` has a
non-empty state list. -/
theorem C4_nonempty_states_witness : D3.states ≠ [] :=
  C4_nonempty_states S3 cl0 none none none { total := 1, devices := [D3] }
    rfl D3 (by simp)

/-- C2: pagination is a pure slice after the room-filtered list is
fully built — `devices` is `L[offset : offset + limit]` of the same
room-filtered ordered list `L` whose length is reported as `total`,
for every limit and offset (so `total` does not depend on them), with
defaults `limit = 100` and `offset = 0`. -/
theorem C2_pagination (st : Store) (classify : Classifier)
    (room : Option String) (L : List Device)
    (h : buildDevices st classify room = .ok L) :
    (∀ n k : Nat, listDevices st classify room (some n) (some k) =
      .ok { total := L.length, devices := (L.drop k).take n }) ∧
    listDevices st classify room none none =
      .ok { total := L.length, devices := (L.drop 0).take 100 } := by
  constructor
  · intro n k
    unfold listDevices
    rw [h]
    rfl
  · unfold listDevices
    rw [h]
    rfl

/-- C2, witness: slicing the one-device list of store `S1` with
limit 5 and offset 0. -/
theorem C2_pagination_witness :
    listDevices S1 cl1 none (some 5) (some 0) =
      .ok { total := 1, devices := [D1] } :=
  (C2_pagination S1 cl1 none [D1] rfl).1 5 0

/-- C1, counterexample. For the grouping entry `a.b` the classifier
returns one control of type `light` contributing only the identifier
`x.y`; the emitted device takes the control's type, but its attached
state set is `["a.b.s"]` — the state-kind descendants of `a.b` — and
not the classifier's contribution `["x.y"]`: it contains a state the
classifier never contributed and misses the one it did. -/
theorem C1_counterexample :
    listDevices S1 cl1 none none none = .ok { total := 1, devices := [D1] } ∧
    cl1 (allObjects S1) "a.b" = [{ type := "light", states := ["x.y"] }] ∧
    D1.type = "light" ∧
    detectedStates (cl1 (allObjects S1) "a.b") = ["x.y"] ∧
    D1.states.map DeviceState.id = ["a.b.s"] ∧
    "a.b.s" ∉ detectedStates (cl1 (allObjects S1) "a.b") ∧
    "x.y" ∉ D1.states.map DeviceState.id :=
  ⟨rfl, rfl, rfl, rfl, rfl, by decide, by decide⟩

/-- C1, amended. For every grouping entry emitted as a device, the
classified type is the first control's type tag (`"unknown"` when the
classifier returns none), while the attached state list is the list of
state-kind entries of the merged object map at or below the grouping
identifier, in snapshot order — the classifier's contributing state
identifiers play no role in attachment. -/
theorem C1_first_type_descendant_states (objects enumRows : List (String × IoObject))
    (gs : String → Except String (Option LiveValue)) (classify : Classifier)
    (roomOn : Bool) (roomMembers : List String) (id : String)
    (obj : IoObject) (d : Device)
    (h : deviceFor objects enumRows gs classify roomOn roomMembers id obj =
      .ok (some d)) :
    d.id = "device:" ++ id ∧
    d.type = (match (classify objects id).head? with
      | some c => c.type
      | none => "unknown") ∧
    d.states.map DeviceState.id =
      (objects.filter (attachesTo id)).map Prod.fst := by
  have hs := deviceFor_some_spec objects enumRows gs classify roomOn roomMembers
    id obj d h
  exact ⟨hs.2.2.1, hs.2.2.2.1, hs.2.2.2.2.1⟩

/-- C1, witness for the amended theorem at the grouping entry `a.b` of
store `S1`. -/
theorem C1_first_type_descendant_states_witness :
    D1.id = "device:" ++ "a.b" ∧
    D1.type = (match (cl1 (allObjects S1) "a.b").head? with
      | some c => c.type
      | none => "unknown") ∧
    D1.states.map DeviceState.id =
      ((allObjects S1).filter (attachesTo "a.b")).map Prod.fst :=
  C1_first_type_descendant_states (allObjects S1) S1.enumRows S1.getState cl1
    false [] "a.b" chanObjB D1 rfl

/-- C5, counterexample. In store `S5` the fetch for the attached state
`a.b.s` fails while the fetch for the sibling `a.b.t` would succeed;
`listDevices` nevertheless aborts with the propagated error — the
enrichment loop has no per-state catch, so nothing is recorded and the
other attached state is never enriched. -/
theorem C5_counterexample :
    gs5 "a.b.t" = .ok none ∧
    listDevices S5 cl0 none none none = .error "boom" :=
  ⟨rfl, rfl⟩

/-- C5, amended. A failing live-value fetch during enrichment is not
isolated: the first matching state whose fetch fails aborts the whole
enrichment scan with that error regardless of the remaining states,
and a failing build propagates unchanged to the `listDevices`
result. -/
theorem C5_fetch_failure_propagates :
    (∀ (gs : String → Except String (Option LiveValue)) (id sid : String)
      (sobj : IoObject) (rest : List (String × IoObject))
      (acc : List DeviceState × List String) (e : String),
      attachesTo id (sid, sobj) = true → gs sid = .error e →
      collectStates gs id ((sid, sobj) :: rest) acc = .error e) ∧
    (∀ (st : Store) (classify : Classifier) (room : Option String)
      (limit offset : Option Nat) (e : String),
      buildDevices st classify room = .error e →
      listDevices st classify room limit offset = .error e) := by
  constructor
  · intro gs id sid sobj rest acc e hat hgs
    simp only [collectStates]
    rw [if_pos hat, hgs]
  · intro st classify room limit offset e h
    unfold listDevices
    rw [h]

/-- C5, witness for the amended theorem at the failing state `a.b.s` of
store `S5`. -/
theorem C5_fetch_failure_propagates_witness :
    collectStates gs5 "a.b" [("a.b.s", stateObjS)] ([], []) = .error "boom" ∧
    listDevices S5 cl0 none none none = .error "boom" :=
  ⟨C5_fetch_failure_propagates.1 gs5 "a.b" "a.b.s" stateObjS [] ([], []) "boom"
      (by decide) rfl,
   C5_fetch_failure_propagates.2 S5 cl0 none none none "boom" rfl⟩

/-! ### Room-filtered counting -/

/-- The predicate counted by the room-filtered `total`: a grouping
entry (device or channel kind) passing the room filter's membership
rule that has at least one state-kind entry at or below it. -/
def roomCountPred (objects : List (String × IoObject))
    (members : List String) (p : String × IoObject) : Bool :=
  (p.2.type == ObjType.device || p.2.type == ObjType.channel) &&
  passesRoomFilter members p.1 &&
  objects.any (attachesTo p.1)

/-- An entry skipped by the loop body (under an active room filter)
fails the counting predicate. -/
lemma deviceFor_none_count (objects enumRows : List (String × IoObject))
    (gs : String → Except String (Option LiveValue)) (classify : Classifier)
    (members : List String) (id : String) (obj : IoObject)
    (h : deviceFor objects enumRows gs classify true members id obj = .ok none) :
    roomCountPred objects members (id, obj) = false := by
  unfold deviceFor at h
  by_cases h1 : (obj.type != ObjType.device && obj.type != ObjType.channel) = true
  · have hg : (obj.type == ObjType.device || obj.type == ObjType.channel) = false := by
      rcases Bool.and_eq_true _ _ |>.mp h1 with ⟨ha, hb⟩
      rw [bne_iff_ne] at ha hb
      simp [ha, hb]
    simp [roomCountPred, hg]
  · rw [if_neg h1] at h
    by_cases h2 : (true && !passesRoomFilter members id) = true
    · have hp : passesRoomFilter members id = false := by
        simpa using h2
      simp [roomCountPred, hp]
    · rw [if_neg h2] at h
      cases hcs : collectStates gs id objects ([], []) with
      | error e =>
          rw [hcs] at h
          cases h
      | ok pr =>
          obtain ⟨deviceStates, roles⟩ := pr
          rw [hcs] at h
          dsimp only at h
          cases deviceStates with
          | nil =>
              have hids :=
                collectStates_ok_ids gs id objects ([], []) ([], roles) hcs
              have hfil : (objects.filter (attachesTo id)).map Prod.fst = [] := by
                simpa using hids.symm
              have hfe : objects.filter (attachesTo id) = [] :=
                List.map_eq_nil_iff.mp hfil
              have hany : objects.any (attachesTo id) = false := by
                rw [List.any_eq_false]
                intro x hx hpx
                have : x ∈ objects.filter (attachesTo id) :=
                  List.mem_filter.mpr ⟨hx, hpx⟩
                rw [hfe] at this
                cases this
              simp [roomCountPred, hany]
          | cons s ss =>
              rw [List.isEmpty_cons, if_neg Bool.false_ne_true] at h
              cases h

/-- An entry emitted by the loop body (under an active room filter)
satisfies the counting predicate. -/
lemma deviceFor_some_count (objects enumRows : List (String × IoObject))
    (gs : String → Except String (Option LiveValue)) (classify : Classifier)
    (members : List String) (id : String) (obj : IoObject) (d : Device)
    (h : deviceFor objects enumRows gs classify true members id obj =
      .ok (some d)) :
    roomCountPred objects members (id, obj) = true := by
  have hs := deviceFor_some_spec objects enumRows gs classify true members
    id obj d h
  have hg : (obj.type == ObjType.device || obj.type == ObjType.channel) = true := by
    rcases hs.1 with h' | h' <;> simp [h']
  have hp : passesRoomFilter members id = true := hs.2.1 rfl
  have hfe : objects.filter (attachesTo id) ≠ [] := by
    intro hnil
    apply hs.2.2.2.2.2
    have hids := hs.2.2.2.2.1
    rw [hnil] at hids
    simp only [List.map_nil] at hids
    exact List.map_eq_nil_iff.mp hids
  have hany : objects.any (attachesTo id) = true := by
    rw [List.any_eq_true]
    obtain ⟨x, hx⟩ := List.exists_mem_of_ne_nil _ hfe
    have hmf := List.mem_filter.mp hx
    exact ⟨x, hmf.1, hmf.2⟩
  simp [roomCountPred, hg, hp, hany]

/-- Under an active room filter, the loop emits exactly one device per
entry satisfying the counting predicate. -/
lemma listDevicesLoop_count (objects enumRows : List (String × IoObject))
    (gs : String → Except String (Option LiveValue)) (classify : Classifier)
    (members : List String) :
    ∀ (pairs : List (String × IoObject)) (L : List Device),
      listDevicesLoop objects enumRows gs classify true members pairs = .ok L →
      L.length = (pairs.filter (roomCountPred objects members)).length := by
  intro pairs
  induction pairs with
  | nil =>
      intro L h
      simp only [listDevicesLoop] at h
      cases h
      simp
  | cons p rest ih =>
      obtain ⟨id, obj⟩ := p
      intro L h
      simp only [listDevicesLoop] at h
      cases hdf : deviceFor objects enumRows gs classify true members id obj with
      | error e =>
          rw [hdf] at h
          cases h
      | ok od =>
          rw [hdf] at h
          cases od with
          | none =>
              have hcp := deviceFor_none_count objects enumRows gs classify
                members id obj hdf
              have hr := ih L h
              simp [List.filter_cons, hcp, hr]
          | some d0 =>
              dsimp only at h
              cases hrec : listDevicesLoop objects enumRows gs classify true
                  members rest with
              | error e =>
                  rw [hrec] at h
                  cases h
              | ok ds' =>
                  rw [hrec] at h
                  have hds := Except.ok.inj h
                  subst hds
                  have hcp := deviceFor_some_count objects enumRows gs classify
                    members id obj d0 hdf
                  have hr := ih ds' hrec
                  simp [List.filter_cons, hcp, hr]

/-- The count of devices in a device list whose resolved room display
name equals `R` case-insensitively — the quantity the specification
says `total` reports under a room filter. -/
def countDevicesInRoom (devices : List Device) (R : String) : Nat :=
  (devices.filter (fun d =>
    match d.room with
    | some r => jsToLower r == jsToLower R
    | none => false)).length

/-- C3, counterexample. Filtering store `S3` by room `Living` yields
`total = 1`: the channel `x.y.dev` passes the filter through the
sibling clause (`x.y.sib` shares its parent `x.y`). But in the
unfiltered result the same device resolves to no room at all — the
resolution rule has no sibling clause — so the number of devices whose
resolved room equals `Living` case-insensitively is `0`, not `1`. -/
theorem C3_counterexample :
    listDevices S3 cl0 (some "Living") none none =
      .ok { total := 1, devices := [D3] } ∧
    listDevices S3 cl0 none none none =
      .ok { total := 1, devices := [D3] } ∧
    D3.room = none ∧
    countDevicesInRoom [D3] "Living" = 0 ∧
    (1 : Nat) ≠ 0 :=
  ⟨rfl, rfl, rfl, rfl, by decide⟩

/-- C3, amended. For every non-empty room name `R`, the `total`
returned under room filter `R` equals the number of grouping entries of
the merged object map that pass the room filter's membership rule —
taken against the members of the first room enumeration whose name
matches `R` case-insensitively — and have at least one state-kind
entry at or below them. (This membership rule additionally admits
entries sharing a parent with a room member, so the count can differ
from the count of devices whose resolved room equals `R`.) -/
theorem C3_room_total (st : Store) (classify : Classifier) (R : String)
    (limit offset : Option Nat) (r : ListResult) (hR : R ≠ "")
    (h : listDevices st classify (some R) limit offset = .ok r) :
    r.total = ((allObjects st).filter
      (roomCountPred (allObjects st) (findRoomMembers R st.enumRows))).length := by
  unfold listDevices at h
  cases hb : buildDevices st classify (some R) with
  | error e =>
      rw [hb] at h
      cases h
  | ok L =>
      rw [hb] at h
      dsimp only at h
      have hr := Except.ok.inj h
      subst hr
      simp only [buildDevices] at hb
      have hro : jsTruthy (some R) = true := by
        simp [jsTruthy, hR]
      rw [hro] at hb
      simp only [if_pos rfl, Option.getD_some] at hb
      exact listDevicesLoop_count (allObjects st) st.enumRows st.getState
        classify (findRoomMembers R st.enumRows) (allObjects st) L hb

/-- C3, witness for the amended theorem on store `S3` and room
`Living`. -/
theorem C3_room_total_witness :
    ({ total := 1, devices := [D3] } : ListResult).total =
      ((allObjects S3).filter
        (roomCountPred (allObjects S3)
          (findRoomMembers "Living" S3.enumRows))).length :=
  C3_room_total S3 cl0 "Living" none none { total := 1, devices := [D3] }
    (by decide) rfl
end McpVerify

